import Mathlib

set_option maxRecDepth 10000

/-!
Shallow embedding of the `handle` function of `src/tutorial.ipynb`
(cognitedata/push-powerbi-tutorial): a cursor-tracked job that fetches
data-point subscription updates from Cognite Data Fusion and pushes them
as a JSON batch to a Power BI push dataset, advancing a durable cursor
only after the sink acknowledged the batch.

The Python is a single function built from pure pieces
(`convert_ms_to_iso`, `create_powerbi_payload`, `fetch_data_points_updates`)
plus I/O against three collaborators: the state time series (cursor store),
the subscription feed, and the Power BI URL. The I/O collaborators are
modelled as an explicit environment (`Env`); the run's externally visible
effects are recorded in a log (`RunLog`); a Python exception is an
`Except.error` outcome.
-/

namespace PowerBI

/-- Numeric observation values pass through the core untouched: `upsert.value[0]`
is copied verbatim from the feed into the payload, and nothing computes with
it. They are therefore modelled as their decimal literals. -/
abbrev Value := String

/-- The `upserts` (or `deletes`) member of a `DatapointsUpdate` of the Cognite
SDK: the id of the time series plus parallel lists of epoch-millisecond
timestamps and values. -/
structure Datapoints where
  id : Nat
  timestamp : List Nat
  value : List Value
deriving DecidableEq

/-- One change record from a feed page (an element of `batch.updates`): the
SDK object carries an upserted part and a deleted part; there is no single
mutation tag, a "deletion" record is one whose `upserts` part is empty. -/
structure DatapointsUpdate where
  upserts : Datapoints
  deletes : Datapoints
deriving DecidableEq

/-- Stream metadata as returned by `client.time_series.retrieve_multiple`:
the fields of a time series object that `create_powerbi_payload` reads. -/
structure TimeSeries where
  id : Nat
  unit : String
  name : String
  external_id : String
deriving DecidableEq

/-- One record of the JSON array POSTed to Power BI. -/
structure OutputRecord where
  timestamp : String
  value : Value
  unit : String
  sensor : String
  tag : String
deriving DecidableEq

/-- One page yielded by `client.time_series.subscriptions.iterate_data`:
a batch of change records, the page's cursor, and the continuation flag. -/
structure Batch where
  updates : List DatapointsUpdate
  cursor : String
  has_next : Bool
deriving DecidableEq

/-- Proleptic-Gregorian civil date (year, month, day) of a count of days
since 1970-01-01, the date part of Python's `ms_to_datetime` for
non-negative epoch milliseconds (all feed timestamps are after the epoch).
Computed arithmetically in 400-year eras. -/
def civilFromDays (days : Nat) : Nat × Nat × Nat :=
  let z := days + 719468
  let era := z / 146097
  let doe := z % 146097
  let yoe := (doe - doe / 1460 + doe / 36524 - doe / 146096) / 365
  let y := yoe + era * 400
  let doy := doe - (365 * yoe + yoe / 4 - yoe / 100)
  let mp := (5 * doy + 2) / 153
  let d := doy - (153 * mp + 2) / 5 + 1
  let m := if mp < 10 then mp + 3 else mp - 9
  (if m ≤ 2 then y + 1 else y, m, d)

/-- Two-digit zero-padded decimal rendering, as Python `isoformat` prints
month, day, hour, minute and second fields. -/
def pad2 (n : Nat) : String := if n < 10 then "0" ++ toString n else toString n

/-- Three-digit zero-padded decimal rendering of the millisecond field. -/
def pad3 (n : Nat) : String :=
  if n < 10 then "00" ++ toString n
  else if n < 100 then "0" ++ toString n
  else toString n

/-- Model of `convert_ms_to_iso` inside `create_powerbi_payload`:
Python rewrites the UTC datetime of an epoch-millisecond timestamp with
millisecond precision and replaces the "+00:00" offset with a literal "Z". -/
def convert_ms_to_iso (ms : Nat) : String :=
  let s := ms / 1000
  let msec := ms % 1000
  let days := s / 86400
  let secOfDay := s % 86400
  let ymd := civilFromDays days
  toString ymd.1 ++ "-" ++ pad2 ymd.2.1 ++ "-" ++ pad2 ymd.2.2 ++ "T" ++
    pad2 (secOfDay / 3600) ++ ":" ++ pad2 (secOfDay % 3600 / 60) ++ ":" ++
    pad2 (secOfDay % 60) ++ "." ++ pad3 msec ++ "Z"

/-- Model of `create_powerbi_payload(update_data, ts_list)`. For every record
of `update_data` (there is no tag filter in the source), the Python takes
`upsert = item.upserts`, looks the stream up with
`next((ts for ts in ts_list if ts.id == upsert.id), None)`, and appends the
output record built from `upsert.timestamp[0]`, `upsert.value[0]` and the
stream's `unit`, `name`, `external_id`. A `None` lookup makes `ts.unit`
raise `AttributeError`; an empty `upsert.timestamp` or `upsert.value` makes
the indexing raise `IndexError`; either exception aborts the whole builder,
modelled as `none`. The `deletes` part of a record is never read. -/
def create_powerbi_payload : List DatapointsUpdate → List TimeSeries → Option (List OutputRecord)
  | [], _ => some []
  | item :: rest, ts_list =>
    match List.find? (fun ts => ts.id == item.upserts.id) ts_list with
    | none => none
    | some ts =>
      match item.upserts.timestamp[0]?, item.upserts.value[0]? with
      | some t0, some v0 =>
        match create_powerbi_payload rest ts_list with
        | none => none
        | some out =>
          some ({ timestamp := convert_ms_to_iso t0, value := v0,
                  unit := ts.unit, sensor := ts.name, tag := ts.external_id } :: out)
      | _, _ => none

/-- Model of `fetch_data_points_updates`: its page loop consumes the pages
the feed iterator yields, concatenating `batch.updates` and overwriting the
cursor with `batch.cursor`, and breaks after the first page whose
`has_next` flag is false; if the iterator is exhausted first, the
accumulated cursor (initially the argument) is returned as is. -/
def fetch_data_points_updates : List Batch → Option String → List DatapointsUpdate × Option String
  | [], cursor => ([], cursor)
  | batch :: rest, _ =>
    if batch.has_next then
      let tail := fetch_data_points_updates rest (some batch.cursor)
      (batch.updates ++ tail.1, tail.2)
    else (batch.updates, some batch.cursor)

/-- A datapoint of the string state time series: wall-clock write timestamp
and stored value. The value is the Python variable `cursor` at the write
site, hence an `Option String` like that variable. -/
abbrev StateDatapoint := Nat × Option String

/-- The cursor store: `none` when the state time series does not exist,
otherwise its datapoints in insertion order. -/
abbrev StoreState := Option (List StateDatapoint)

/-- Step 1 of `handle`, read side: the cursor variable after the first
block — `None` when the state series is missing or has no datapoints,
otherwise the value of the latest datapoint (`retrieve_latest`). -/
def storedCursor : StoreState → Option String
  | none => none
  | some dps => dps.getLast?.bind Prod.snd

/-- Step 1 of `handle`, provisioning side: `client.time_series.create` is
called exactly when the state series does not exist; the new series has no
datapoints. -/
def provision : StoreState → StoreState
  | none => some []
  | some dps => some dps

/-- Model of `client.time_series.data.insert` on the state series: append
one datapoint holding the cursor. -/
def insertDp (st : StoreState) (now : Nat) (c : Option String) : StoreState :=
  match st with
  | none => some [(now, c)]
  | some dps => some (dps ++ [(now, c)])

/-- A Python exception escaping `handle`. -/
inductive HandleError where
  | builderError
  | transportError
deriving DecidableEq

/-- The externally visible requests one run makes beyond the cursor store:
the id lists passed to `client.time_series.retrieve_multiple`, the JSON
bodies POSTed to the sink, and whether the success branch
(status code 200) was taken. -/
structure RunLog where
  metadataLookups : List (List Nat)
  sinkPosts : List (List OutputRecord)
  published : Bool
deriving DecidableEq

/-- A finished run: its request log, the cursor store it leaves behind, and
its outcome — the Python return value (always `None`) or the exception. -/
structure RunResult where
  log : RunLog
  state : StoreState
  outcome : Except HandleError (Option Unit)

/-- The collaborators of one run: the subscription's member time series ids
(`list_member_time_series`), the metadata the backend returns for the
`retrieve_multiple` call, the pages the feed iterator yields from a given
starting cursor, the sink's HTTP status (`none` models a transport error,
i.e. `requests.request` raising), and the wall clock at the cursor write. -/
structure Env where
  ts_items : List Nat
  ts_list : List TimeSeries
  pages : Option String → List Batch
  sinkStatus : Option Nat
  now : Nat

/-- The records and cursor `fetch_data_points_updates` returns inside a run:
the feed is drained from the stored pre-run cursor. -/
def fetchedOf (env : Env) (st : StoreState) : List DatapointsUpdate × Option String :=
  fetch_data_points_updates (env.pages (storedCursor st)) (storedCursor st)

/-- Model of `handle(client, data, secrets)`, step by step:
1. read the latest cursor from the state series, creating the series if
   absent; 2–3. fetch the subscription's member time series and their
   metadata in one `retrieve_multiple` call; 4. drain the update pages;
5. if there are no updates, return `None` without writing;
6. build the payload (an exception aborts the run); 7. POST the payload
once; exactly on status 200 append the new cursor to the state series.
All normal paths return `None`. -/
def handle (env : Env) (st : StoreState) : RunResult :=
  let st1 := provision st
  let lookups := [env.ts_items]
  let fetched := fetchedOf env st
  if fetched.1 = [] then
    { log := { metadataLookups := lookups, sinkPosts := [], published := false },
      state := st1, outcome := Except.ok none }
  else
    match create_powerbi_payload fetched.1 env.ts_list with
    | none =>
      { log := { metadataLookups := lookups, sinkPosts := [], published := false },
        state := st1, outcome := Except.error HandleError.builderError }
    | some data =>
      match env.sinkStatus with
      | none =>
        { log := { metadataLookups := lookups, sinkPosts := [data], published := false },
          state := st1, outcome := Except.error HandleError.transportError }
      | some code =>
        if code = 200 then
          { log := { metadataLookups := lookups, sinkPosts := [data], published := true },
            state := insertDp st1 env.now fetched.2, outcome := Except.ok none }
        else
          { log := { metadataLookups := lookups, sinkPosts := [data], published := false },
            state := st1, outcome := Except.ok none }

/-- Erase the delete observations of a change record, used to state that the
payload builder never reads them. -/
def eraseDeletes (u : DatapointsUpdate) : DatapointsUpdate :=
  { u with deletes := { id := u.upserts.id, timestamp := [], value := [] } }

/-- A record whose change is a pure deletion: empty upsert observation
lists, one deleted range-worth of observations. -/
def deleteOnlyRecord : DatapointsUpdate :=
  { upserts := { id := 1, timestamp := [], value := [] },
    deletes := { id := 1, timestamp := [3, 4], value := ["1.0", "2.0"] } }

/-- Metadata for the stream of `deleteOnlyRecord` and the fidelity records. -/
def sensorMeta : TimeSeries :=
  { id := 1, unit := "C", name := "Sensor A", external_id := "EVE-1" }

/-- The upsert record of the payload-fidelity claim, at the epoch-millisecond
timestamp the claim names. -/
def fidelityRecordClaimed : DatapointsUpdate :=
  { upserts := { id := 1, timestamp := [1699383982462], value := ["98.6"] },
    deletes := { id := 1, timestamp := [], value := [] } }

/-- The upsert record whose first observation really is at
2023-11-07T18:46:22.462Z (epoch milliseconds 1699382782462). -/
def fidelityRecordActual : DatapointsUpdate :=
  { upserts := { id := 1, timestamp := [1699382782462], value := ["98.6"] },
    deletes := { id := 1, timestamp := [], value := [] } }

/-! Helper lemmas about the store primitives. -/

theorem storedCursor_provision (st : StoreState) :
    storedCursor (provision st) = storedCursor st := by
  cases st <;> rfl

theorem storedCursor_insertDp (st : StoreState) (now : Nat) (c : Option String) :
    storedCursor (insertDp st now c) = c := by
  cases st with
  | none => cases c <;> rfl
  | some dps => simp [insertDp, storedCursor]

theorem insertDp_ne_provision (st : StoreState) (now : Nat) (c : Option String) :
    insertDp (provision st) now c ≠ provision st := by
  cases st with
  | none => simp [insertDp, provision]
  | some dps =>
    simp only [insertDp, provision, ne_eq, Option.some.injEq]
    intro h
    have hl := congrArg List.length h
    simp at hl

/-- Helper: the builder fails outright when any record of the list has no
upsert observations (`upsert.timestamp[0]` raises `IndexError`). -/
theorem create_powerbi_payload_none_of_empty_upserts (ud : List DatapointsUpdate)
    (tl : List TimeSeries) (u : DatapointsUpdate) (hu : u ∈ ud)
    (ht : u.upserts.timestamp = []) :
    create_powerbi_payload ud tl = none := by
  induction ud with
  | nil => cases hu
  | cons a rest ih =>
    cases hu with
    | head =>
      simp only [create_powerbi_payload, ht, List.getElem?_nil]
      split
      · rfl
      · rfl
    | tail _ hm =>
      have hrest := ih hm
      simp only [create_powerbi_payload, hrest]
      split
      · rfl
      · split <;> rfl

/-! Claim theorems. -/

/-- Claim C9 (confirmed): when the feed iterator yields zero pages, the
fetch returns no records and the very cursor it was called with — the
pre-run cursor is passed through unchanged. -/
theorem fetch_zero_pages_identity (c : Option String) :
    fetch_data_points_updates [] c = ([], c) := rfl

/-- Claim C4 (confirmed): the fetch drains pages until the first page whose
continuation flag is false, returns the concatenation of the consumed
pages' records in page order, and returns the cursor of that final consumed
page; later pages are not consumed. -/
theorem fetch_drains_until_flag_false (p : List Batch) (q : Batch) (r : List Batch)
    (c : Option String) (hp : ∀ b ∈ p, b.has_next = true) (hq : q.has_next = false) :
    fetch_data_points_updates (p ++ q :: r) c =
      ((p.map Batch.updates).flatten ++ q.updates, some q.cursor) := by
  induction p generalizing c with
  | nil => simp [fetch_data_points_updates, hq]
  | cons b rest ih =>
    have hb : b.has_next = true := hp b (by simp)
    have hrest : ∀ x ∈ rest, x.has_next = true := fun x hx => hp x (by simp [hx])
    simp [fetch_data_points_updates, hb, ih _ hrest, List.append_assoc]

/-- Witness for C4: two concrete pages with the flag true then false,
followed by an unconsumed page; the records concatenate in order and the
cursor is "c9" from the second page. -/
theorem fetch_drains_until_flag_false_witness :
    fetch_data_points_updates
        [{ updates := [fidelityRecordActual], cursor := "c1", has_next := true },
         { updates := [deleteOnlyRecord], cursor := "c9", has_next := false },
         { updates := [fidelityRecordClaimed], cursor := "cX", has_next := true }]
        (some "c0") =
      ([fidelityRecordActual, deleteOnlyRecord], some "c9") := by
  have h := fetch_drains_until_flag_false
    [{ updates := [fidelityRecordActual], cursor := "c1", has_next := true }]
    { updates := [deleteOnlyRecord], cursor := "c9", has_next := false }
    [{ updates := [fidelityRecordClaimed], cursor := "cX", has_next := true }]
    (some "c0") (by decide) (by decide)
  simpa using h

/-- Claim C8 (confirmed): a change record whose stream id has no entry in the
resolved metadata list makes the whole builder fail (`ts` is `None`, so
building the output record raises), rather than emitting a
partially-populated record. -/
theorem builder_fails_on_missing_metadata (ud : List DatapointsUpdate)
    (tl : List TimeSeries) (u : DatapointsUpdate) (hu : u ∈ ud)
    (h : List.find? (fun ts => ts.id == u.upserts.id) tl = none) :
    create_powerbi_payload ud tl = none := by
  induction ud with
  | nil => cases hu
  | cons a rest ih =>
    cases hu with
    | head => simp [create_powerbi_payload, h]
    | tail _ hm =>
      have hrest := ih hm
      simp only [create_powerbi_payload, hrest]
      split
      · rfl
      · split <;> rfl

/-- Witness for C8: a record referencing stream 1 against a metadata list
holding only stream 2 — the builder returns failure. -/
theorem builder_fails_on_missing_metadata_witness :
    create_powerbi_payload [fidelityRecordActual]
      [{ id := 2, unit := "u", name := "n", external_id := "e" }] = none :=
  builder_fails_on_missing_metadata [fidelityRecordActual]
    [{ id := 2, unit := "u", name := "n", external_id := "e" }]
    fidelityRecordActual (by decide) (by decide)

/-- Claim C2, counterexample: a pure-deletion record (no upsert
observations) is not dropped silently — the builder fails on it
(`upsert.timestamp[0]` raises `IndexError` in the source), so the result is
not the empty payload the claim's silent drop would produce. -/
theorem delete_record_not_dropped_silently :
    create_powerbi_payload [deleteOnlyRecord] [sensorMeta] = none ∧
      (none : Option (List OutputRecord)) ≠ some [] := by
  exact ⟨by decide, by decide⟩

/-- Claim C2 as amended (proved): the payload builder reads only the upsert
part of each record — erasing every record's delete observations leaves the
built payload unchanged, so deleted observations never appear in it — but a
record carrying no upsert observations makes the builder fail rather than
being dropped silently. -/
theorem payload_ignores_deletes_but_fails_on_delete_only (ud : List DatapointsUpdate)
    (tl : List TimeSeries) :
    create_powerbi_payload (ud.map eraseDeletes) tl = create_powerbi_payload ud tl
    ∧ (∀ u ∈ ud, u.upserts.timestamp = [] → create_powerbi_payload ud tl = none) := by
  constructor
  · induction ud with
    | nil => rfl
    | cons a rest ih =>
      simp only [List.map_cons, create_powerbi_payload, eraseDeletes, ih]
  · intro u hu ht
    exact create_powerbi_payload_none_of_empty_upserts ud tl u hu ht

/-- Claim C5, counterexample: at the claim's epoch-millisecond input
1699383982462 the builder produces the timestamp 2023-11-07T19:06:22.462Z,
not the claimed 2023-11-07T18:46:22.462Z (which is epoch 1699382782462, 20
minutes earlier): the claim's input/output pair is inconsistent. -/
theorem fidelity_fails_at_claimed_epoch :
    create_powerbi_payload [fidelityRecordClaimed] [sensorMeta] =
      some [{ timestamp := "2023-11-07T19:06:22.462Z", value := "98.6",
              unit := "C", sensor := "Sensor A", tag := "EVE-1" }]
    ∧ "2023-11-07T19:06:22.462Z" ≠ "2023-11-07T18:46:22.462Z" := by
  exact ⟨by decide, by decide⟩

/-- Claim C5 as amended (proved): for an upsert record with first
observation at epoch milliseconds 1699382782462 and value 98.6, with stream
metadata unit "C", name "Sensor A", external id "EVE-1", the builder
produces exactly the claimed output record with ISO-8601
millisecond-precision UTC timestamp 2023-11-07T18:46:22.462Z, Z-suffixed. -/
theorem fidelity_exact_at_actual_epoch :
    create_powerbi_payload [fidelityRecordActual] [sensorMeta] =
      some [{ timestamp := "2023-11-07T18:46:22.462Z", value := "98.6",
              unit := "C", sensor := "Sensor A", tag := "EVE-1" }] := by
  decide

/-! Concrete runs used by counterexamples and witnesses. -/

/-- A store whose state series exists and holds the cursor "c0". -/
def st0 : StoreState := some [(5, some "c0")]

/-- An environment whose feed yields no pages: the run's change set is
empty. One subscription member (stream 7) exists. -/
def envNoUpdates : Env :=
  { ts_items := [7], ts_list := [], pages := fun _ => [], sinkStatus := some 200, now := 100 }

/-- Metadata of a second member stream that no change record references. -/
def meta2 : TimeSeries := { id := 2, unit := "u2", name := "Sensor B", external_id := "EVE-2" }

/-- The single feed page of the concrete runs: one upsert record for
stream 1, final cursor "c9", no continuation. -/
def pageOne : Batch :=
  { updates := [fidelityRecordActual], cursor := "c9", has_next := false }

/-- An environment with two member streams of which the feed page references
only stream 1; the sink acknowledges with 200. -/
def envTwoMembers : Env :=
  { ts_items := [1, 2], ts_list := [sensorMeta, meta2], pages := fun _ => [pageOne],
    sinkStatus := some 200, now := 100 }

/-- The same run but the sink answers 201 — an acknowledging 2xx status that
is not the literal 200 the source compares against. -/
def envStatus201 : Env := { envTwoMembers with sinkStatus := some 201 }

/-- Helper: every normal (non-raising) branch of `handle`, in particular
every branch that set `published`, returns the Python value `None`. -/
theorem handle_published_outcome_ok (env : Env) (st : StoreState) :
    (handle env st).log.published = true → (handle env st).outcome = Except.ok none := by
  by_cases hE : (fetchedOf env st).1 = []
  · simp [handle, hE]
  · cases hB : create_powerbi_payload (fetchedOf env st).1 env.ts_list with
    | none => simp [handle, hE, hB]
    | some data =>
      cases hS : env.sinkStatus with
      | none => simp [handle, hE, hB, hS]
      | some code =>
        by_cases hc : code = 200 <;> simp [handle, hE, hB, hS, hc]

/-- Claim C1 (confirmed): the store gains a cursor datapoint exactly when the
run took the publish-success branch; on success the stored cursor becomes
the cursor the fetch returned, otherwise the stored cursor after the run is
the stored cursor before it (the state series is at most provisioned, which
stores no cursor); and the success branch is taken only on a sink
acknowledgment of 200. -/
theorem handle_cursor_written_iff_publish_success (env : Env) (st : StoreState) :
    (storedCursor (handle env st).state =
      if (handle env st).log.published then (fetchedOf env st).2 else storedCursor st)
    ∧ ((handle env st).state ≠ provision st ↔ (handle env st).log.published = true)
    ∧ ((handle env st).log.published = true → env.sinkStatus = some 200) := by
  by_cases hE : (fetchedOf env st).1 = []
  · simp [handle, hE, storedCursor_provision]
  · cases hB : create_powerbi_payload (fetchedOf env st).1 env.ts_list with
    | none => simp [handle, hE, hB, storedCursor_provision]
    | some data =>
      cases hS : env.sinkStatus with
      | none => simp [handle, hE, hB, hS, storedCursor_provision]
      | some code =>
        by_cases hc : code = 200
        · simp [handle, hE, hB, hS, hc, storedCursor_insertDp, insertDp_ne_provision]
        · simp [handle, hE, hB, hS, hc, storedCursor_provision]

/-- Claim C3, counterexample: a run with an empty change set still queries
stream metadata — the member list and `retrieve_multiple` calls happen
before the update fetch, so the Metadata Cache is not left untouched. -/
theorem empty_run_still_queries_metadata :
    (fetchedOf envNoUpdates st0).1 = []
    ∧ (handle envNoUpdates st0).log.metadataLookups.length = 1 :=
  ⟨rfl, rfl⟩

/-- Claim C3 as amended (proved): a run whose fetched change set is empty
returns `None` without writing to the cursor store (the state series keeps
its datapoints, so the stored cursor is unchanged) and without any sink
request — but it still performs its one batched metadata lookup, which
precedes the update fetch in the source. -/
theorem empty_fetch_is_noop_except_metadata (env : Env) (st : StoreState)
    (h : (fetchedOf env st).1 = []) :
    (handle env st).outcome = Except.ok none
    ∧ (handle env st).state = provision st
    ∧ storedCursor (handle env st).state = storedCursor st
    ∧ (handle env st).log.sinkPosts = []
    ∧ (handle env st).log.published = false
    ∧ (handle env st).log.metadataLookups = [env.ts_items] := by
  simp [handle, h, storedCursor_provision]

/-- Witness for C3 as amended: the concrete empty-feed run. -/
theorem empty_fetch_is_noop_except_metadata_witness :
    (fetchedOf envNoUpdates st0).1 = []
    ∧ ((handle envNoUpdates st0).outcome = Except.ok none
      ∧ (handle envNoUpdates st0).state = provision st0
      ∧ storedCursor (handle envNoUpdates st0).state = storedCursor st0
      ∧ (handle envNoUpdates st0).log.sinkPosts = []
      ∧ (handle envNoUpdates st0).log.published = false
      ∧ (handle envNoUpdates st0).log.metadataLookups = [envNoUpdates.ts_items]) :=
  ⟨rfl, empty_fetch_is_noop_except_metadata envNoUpdates st0 rfl⟩

/-- Claim C6, counterexample: the ids passed to the one metadata lookup are
the subscription's full member list [1, 2], while the run's change records
reference only stream 1 — the looked-up set is not the referenced set. -/
theorem metadata_lookup_not_restricted_to_referenced :
    (handle envTwoMembers st0).log.metadataLookups = [[1, 2]]
    ∧ (fetchedOf envTwoMembers st0).1.map (fun u => u.upserts.id) = [1]
    ∧ ([1, 2] : List Nat) ≠ [1] :=
  ⟨rfl, rfl, by decide⟩

/-- Claim C6 as amended (proved): every run performs exactly one batched
metadata lookup, and the ids it looks up are the subscription's member time
series ids — the full member list, regardless of which streams the run's
change records reference. -/
theorem metadata_single_batched_lookup (env : Env) (st : StoreState) :
    (handle env st).log.metadataLookups = [env.ts_items] := by
  by_cases hE : (fetchedOf env st).1 = []
  · simp [handle, hE]
  · cases hB : create_powerbi_payload (fetchedOf env st).1 env.ts_list with
    | none => simp [handle, hE, hB]
    | some data =>
      cases hS : env.sinkStatus with
      | none => simp [handle, hE, hB, hS]
      | some code =>
        by_cases hc : code = 200 <;> simp [handle, hE, hB, hS, hc]

/-- Claim C7, counterexample: the sink acknowledges with 201 — a
2xx-equivalent response — yet the run is counted a failure (the success
branch is not taken and the cursor is not advanced), because the source
compares the status against the literal 200. -/
theorem status_201_not_counted_success :
    (200 ≤ 201 ∧ 201 < 300)
    ∧ (handle envStatus201 st0).log.sinkPosts.length = 1
    ∧ (handle envStatus201 st0).log.published = false
    ∧ storedCursor (handle envStatus201 st0).state = storedCursor st0 :=
  ⟨by decide, rfl, rfl, rfl⟩

/-- Claim C7 as amended (proved): the publisher makes at most one delivery
attempt per run, every posted body is the single serialized payload of the
whole fetched batch, and the publish step is counted a success exactly when
a post was attempted and the sink's response status is the literal 200 —
any other status, or a transport error, is a failure, with no in-core
retry. -/
theorem publish_one_attempt_success_iff_200 (env : Env) (st : StoreState) :
    (handle env st).log.sinkPosts.length ≤ 1
    ∧ ((handle env st).log.published = true ↔
        ((handle env st).log.sinkPosts ≠ [] ∧ env.sinkStatus = some 200))
    ∧ (∀ b ∈ (handle env st).log.sinkPosts,
        create_powerbi_payload (fetchedOf env st).1 env.ts_list = some b) := by
  by_cases hE : (fetchedOf env st).1 = []
  · simp [handle, hE]
  · cases hB : create_powerbi_payload (fetchedOf env st).1 env.ts_list with
    | none => simp [handle, hE, hB]
    | some data =>
      cases hS : env.sinkStatus with
      | none => simp [handle, hE, hB, hS]
      | some code =>
        by_cases hc : code = 200 <;> simp [handle, hE, hB, hS, hc]

/-- Claim C10 (confirmed): when the sink responds with any status other than
200 after a post was attempted, `handle` completes normally and returns
`None` — and every run that took the publish-success branch also returns
`None`, so the caller cannot tell publish failure from success by the
return value. -/
theorem non_200_response_returns_none (env : Env) (st : StoreState) (code : Nat)
    (hS : env.sinkStatus = some code) (hc : code ≠ 200)
    (hA : (handle env st).log.sinkPosts ≠ []) :
    (handle env st).outcome = Except.ok none
    ∧ (∀ env2 st2, (handle env2 st2).log.published = true →
        (handle env2 st2).outcome = Except.ok none) := by
  refine ⟨?_, fun env2 st2 => handle_published_outcome_ok env2 st2⟩
  by_cases hE : (fetchedOf env st).1 = []
  · simp [handle, hE]
  · cases hB : create_powerbi_payload (fetchedOf env st).1 env.ts_list with
    | none => simp [handle, hE, hB] at hA
    | some data => simp [handle, hE, hB, hS, hc]

/-- Witness for C10: the concrete 201-response run — a post happened, the
status differs from 200, and the run still returns `None`. -/
theorem non_200_response_returns_none_witness :
    (envStatus201.sinkStatus = some 201 ∧ 201 ≠ 200
      ∧ (handle envStatus201 st0).log.sinkPosts ≠ [])
    ∧ (handle envStatus201 st0).outcome = Except.ok none :=
  ⟨⟨rfl, by decide, by decide⟩,
    (non_200_response_returns_none envStatus201 st0 201 rfl (by decide) (by decide)).1⟩

end PowerBI
